import Mathlib

/-!
Shallow embedding of the multi-source search / response-fusion core of the
bot-prototype repository, together with theorems settling the frozen claims.

Sources embedded:
* `src/bot/utils/text_utils.py` — `limpar_texto`, `extrair_sentencas`,
  `juntar_sentencas` (regex substitutions are modelled by bespoke matchers
  with the same leftmost-match, greedy semantics; the `\w`/`\s` classes are
  modelled on their ASCII fragment plus the accented characters the source
  lists explicitly).
* `src/utils/response_combiner.py` — `calcular_relevancia` (sklearn
  `TfidfVectorizer` over exactly two documents with the default token
  pattern `\b\w\w+\b`, lowercasing, smooth idf and l2 norm, then cosine
  similarity; float arithmetic is modelled over `ℝ`, float literals such as
  `0.3`, `0.7` by the corresponding rationals), `ranquear_respostas`,
  `remover_duplicatas`, `extrair_sentencas_relevantes`,
  `combinar_respostas`, `combinar_com_fonte_principal`.  Python's stable
  descending `list.sort` is modelled by `List.insertionSort` with the
  reflexive-on-ties relation `relScore`, which is stable in the same way.
* `src/bot/api/unified_searcher.py` — `buscar_inteligente`'s result
  collection loop.  The thread pool's nondeterminism is modelled by an
  oracle: the list of completion events (source, elapsed time, result) in
  completion order for the futures that completed before the overall
  timeout, plus a flag telling whether futures were still pending when
  `as_completed` would have raised `TimeoutError`.  A raised exception is
  modelled as `Except.error`.
* `src/bot/utils/search_strategy.py` — `selecionar_fontes` and the static
  priority map.
-/

/-! ### Character classes (ASCII fragments of Python's `\s`, `\w`, `str.strip`) -/

/-- Characters Python's `str.strip` and the regex class `\s` treat as
whitespace (ASCII fragment). -/
def isPySpace (c : Char) : Bool :=
  c = ' ' || c = '\t' || c = '\n' || c = '\r' || c = '\x0b' || c = '\x0c'

/-- The accented characters explicitly whitelisted by `limpar_texto`. -/
def acentos : List Char :=
  ['á', 'à', 'â', 'ã', 'é', 'è', 'ê', 'í', 'ï', 'ó', 'ô', 'õ', 'ö', 'ú', 'ç', 'ñ',
   'Á', 'À', 'Â', 'Ã', 'É', 'È', 'Ê', 'Í', 'Ï', 'Ó', 'Ô', 'Õ', 'Ö', 'Ú', 'Ç', 'Ñ']

/-- The regex class `\w` (ASCII alphanumerics, underscore, and the accented
letters the source also lists explicitly). -/
def isWordChar (c : Char) : Bool :=
  c.isAlphanum || c = '_' || acentos.contains c

/-- `str.strip()` on a character list. -/
def pyStripList (cs : List Char) : List Char :=
  ((cs.dropWhile isPySpace).reverse.dropWhile isPySpace).reverse

/-- Python's `str.strip()`. -/
def pyStrip (s : String) : String := ⟨pyStripList s.data⟩

/-! ### A tiny substitution engine for the `re.sub` calls of `limpar_texto`

Each pattern of the source is implemented as a matcher
`List Char → Option (List Char)` that tries to match at the head of the
list and returns the remainder after the (greedy, leftmost) match.  All
matchers consume at least one character when they succeed.  `subst` scans
left to right exactly like `re.sub`. -/

/-- Match a literal character sequence, returning the remainder. -/
def matchLit : List Char → List Char → Option (List Char)
  | [], cs => some cs
  | _ :: _, [] => none
  | p :: ps, c :: cs => if p = c then matchLit ps cs else none

/-- Match one-or-more characters of a class, greedily (`X+`). -/
def munch1 (p : Char → Bool) : List Char → Option (List Char)
  | c :: cs => if p c then some (cs.dropWhile p) else none
  | [] => none

/-- Match exactly `n` characters of a class (`X{n}`). -/
def munchExact (p : Char → Bool) : Nat → List Char → Option (List Char)
  | 0, cs => some cs
  | _ + 1, [] => none
  | n + 1, c :: cs => if p c then munchExact p n cs else none

/-- Matcher for `https?://\S+|www\.\S+` (first alternative preferred, as in
the regex). -/
def matchUrl (cs : List Char) : Option (List Char) :=
  match (matchLit "http".data cs).bind fun r =>
      (match matchLit "s://".data r with
        | some r2 => some r2
        | none => matchLit "://".data r).bind
        fun r3 => munch1 (fun c => !isPySpace c) r3 with
  | some r => some r
  | none =>
    (matchLit "www.".data cs).bind fun r => munch1 (fun c => !isPySpace c) r

/-- Matcher for `\d{1,2}` followed by something other than a digit (the
only way `\d{1,2}` can be extended by the rest of the date patterns, whose
next class is disjoint from digits). -/
def munchDigits12 (cs : List Char) : Option (List Char) :=
  let ds := cs.takeWhile (fun c => c.isDigit)
  if ds.length = 1 ∨ ds.length = 2 then some (cs.dropWhile (fun c => c.isDigit))
  else none

/-- Matcher for `\d{1,2}\s+de\s+\w+\s+de\s+\d{4}`. -/
def matchData1 (cs : List Char) : Option (List Char) :=
  (munchDigits12 cs).bind fun r1 =>
  (munch1 isPySpace r1).bind fun r2 =>
  (matchLit "de".data r2).bind fun r3 =>
  (munch1 isPySpace r3).bind fun r4 =>
  (munch1 isWordChar r4).bind fun r5 =>
  (munch1 isPySpace r5).bind fun r6 =>
  (matchLit "de".data r6).bind fun r7 =>
  (munch1 isPySpace r7).bind fun r8 =>
  munchExact (fun c => c.isDigit) 4 r8

/-- Matcher for `\d{1,2}\s+de\s+\w+,?\s+\d{4}`. -/
def matchData2 (cs : List Char) : Option (List Char) :=
  (munchDigits12 cs).bind fun r1 =>
  (munch1 isPySpace r1).bind fun r2 =>
  (matchLit "de".data r2).bind fun r3 =>
  (munch1 isPySpace r3).bind fun r4 =>
  (munch1 isWordChar r4).bind fun r5 =>
  (munch1 isPySpace (match r5 with | ',' :: t => t | _ => r5)).bind fun r6 =>
  munchExact (fun c => c.isDigit) 4 r6

/-- Matcher for `\d{1,2},` (two digits preferred, then the comma). -/
def munchDigitsVirgula : List Char → Option (List Char)
  | a :: b :: c :: rest =>
    if a.isDigit then
      if b.isDigit then (if c = ',' then some rest else none)
      else if b = ',' then some (c :: rest) else none
    else none
  | [a, b] => if a.isDigit ∧ b = ',' then some [] else none
  | _ => none

/-- Matcher for `[A-Z][a-z]{2}\s+\d{1,2},\s+\d{4}`. -/
def matchData3 (cs : List Char) : Option (List Char) :=
  match cs with
  | u :: a :: b :: rest =>
    if u.isUpper ∧ a.isLower ∧ b.isLower then
      (munch1 isPySpace rest).bind fun r1 =>
      (munchDigitsVirgula r1).bind fun r2 =>
      (munch1 isPySpace r2).bind fun r3 =>
      munchExact (fun c => c.isDigit) 4 r3
    else none
  | _ => none

/-- Matcher for `[A-Z][a-z]{2}\s+\d{1,2},\s+\d{4}\s*\.{3}`. -/
def matchData4 (cs : List Char) : Option (List Char) :=
  (matchData3 cs).bind fun r => matchLit ['.', '.', '.'] (r.dropWhile isPySpace)

/-- Matcher for `\.{2,}` (greedy run of at least two dots). -/
def matchPontos2 : List Char → Option (List Char)
  | '.' :: '.' :: rest => some (rest.dropWhile (fun c => c = '.'))
  | _ => none

/-- `re.sub`: scan left to right, replacing each leftmost match and resuming
after it.  Fuel is the list length, enough because every matcher consumes at
least one character. -/
def substAux (m : List Char → Option (List Char)) (repl : List Char) :
    Nat → List Char → List Char
  | _, [] => []
  | 0, cs => cs
  | fuel + 1, c :: cs =>
    match m (c :: cs) with
    | some rest => repl ++ substAux m repl fuel rest
    | none => c :: substAux m repl fuel cs

/-- Run one `re.sub` pass over a character list. -/
def subst (m : List Char → Option (List Char)) (repl : List Char)
    (cs : List Char) : List Char :=
  substAux m repl (cs.length + 1) cs

/-- Characters kept by the class `[^\w\s\.,!?;:()\-á…]` substitution
(everything outside the class is removed; the class removal is a per-character
filter because each match is a single character). -/
def charPermitido (c : Char) : Bool :=
  isWordChar c || isPySpace c || [',', '.', '!', '?', ';', ':', '(', ')', '-'].contains c

/-- `text_utils.limpar_texto`: URL removal, character whitelist, date-pattern
removal, ellipsis collapsing, whitespace collapsing plus strip, control
character removal — in the order of the source. -/
def limparTexto (texto : String) : String :=
  if texto = "" then ""
  else
    let cs1 := subst matchUrl [] texto.data
    let cs2 := cs1.filter charPermitido
    let cs3 := subst matchData1 [] cs2
    let cs4 := subst matchData2 [] cs3
    let cs5 := subst matchData3 [] cs4
    let cs6 := subst matchData4 [] cs5
    let cs7 := subst matchPontos2 ['.'] cs6
    let cs8 := pyStripList (subst (munch1 isPySpace) [' '] cs7)
    ⟨cs8.filter fun c => !(c.toNat ≤ 0x1f || (0x7f ≤ c.toNat && c.toNat ≤ 0x9f))⟩

/-- Split at `(?<=[.!?])\s+(?=[A-Z])`: a maximal whitespace run preceded by a
sentence terminator and followed by an ASCII capital.  Fuel recursion; each
step consumes at least one character. -/
def splitSentencasAux : Nat → List Char → List Char → List (List Char)
  | _, [], acc => [acc.reverse]
  | 0, cs, acc => [acc.reverse ++ cs]
  | fuel + 1, c :: rest, acc =>
    if c = '.' ∨ c = '!' ∨ c = '?' then
      let ws := rest.takeWhile isPySpace
      let after := rest.dropWhile isPySpace
      if ws.length ≠ 0 ∧ (after.headD 'a').isUpper ∧ after ≠ [] then
        (c :: acc).reverse :: splitSentencasAux fuel after []
      else splitSentencasAux fuel rest (c :: acc)
    else splitSentencasAux fuel rest (c :: acc)

/-- `text_utils.extrair_sentencas`: clean, split into sentences, keep the
stripped pieces longer than 10 characters, optionally truncate (Python's
`if max_sentencas:` treats `None` and `0` alike, hence the `0` case). -/
def extrairSentencas (texto : String) (maxSentencas : Option Nat) : List String :=
  if texto = "" then []
  else
    let t := limparTexto texto
    let pedacos := splitSentencasAux (t.data.length + 1) t.data []
    let sentencas := (pedacos.map fun cs => pyStrip ⟨cs⟩).filter fun s => 10 < s.length
    match maxSentencas with
    | some (n + 1) => sentencas.take (n + 1)
    | _ => sentencas

/-- `' '.join` of Python, on which `juntar_sentencas` is built. -/
def juntarAux : List String → String
  | [] => ""
  | [s] => s
  | s :: rest => s ++ " " ++ juntarAux rest

/-- `text_utils.juntar_sentencas`: join with single spaces and ensure the
result ends in terminal punctuation. -/
def juntarSentencas (sentencas : List String) : String :=
  if sentencas = [] then ""
  else
    let texto := juntarAux sentencas
    if texto ≠ "" ∧ ¬(texto.data.getLastD 'a' = '.' ∨ texto.data.getLastD 'a' = '!' ∨ texto.data.getLastD 'a' = '?')
    then texto ++ "." else texto

/-! ### The relevance scorer (`calcular_relevancia`)

sklearn's `TfidfVectorizer()` with default settings over exactly the two
input texts: lowercase, tokens are maximal `\w` runs of length ≥ 2
(`token_pattern = \b\w\w+\b`), smooth idf `ln(3/(1+df)) + 1` with `n = 2`
documents, l2 normalisation, then cosine similarity.  `fit_transform`
raises `ValueError` when no document contains any token ("empty
vocabulary"); the bare `except` of the source maps that to `0.0`.  A zero
tf-idf row yields similarity `0.0` (sklearn leaves zero rows unnormalised).
Float arithmetic is modelled over `ℝ`. -/

/-- Maximal runs of word characters, left to right. -/
def wordRunsAux : List Char → List Char → List (List Char)
  | [], acc => if acc.isEmpty then [] else [acc.reverse]
  | c :: cs, acc =>
    if isWordChar c then wordRunsAux cs (c :: acc)
    else if acc.isEmpty then wordRunsAux cs [] else acc.reverse :: wordRunsAux cs []

/-- sklearn's default tokenizer: lowercase, keep `\w` runs of length ≥ 2
(`str.lower` is modelled characterwise, its ASCII behaviour). -/
def tokenize (s : String) : List String :=
  ((wordRunsAux (s.data.map Char.toLower) []).filter fun w => 2 ≤ w.length).map
    fun cs => (⟨cs⟩ : String)

/-- Term frequency of `t` in document `doc`. -/
def tf (doc : List String) (t : String) : ℕ := doc.count t

/-- The fitted vocabulary: the distinct tokens of the two documents. -/
def vocabulario (d1 d2 : List String) : List String := (d1 ++ d2).dedup

/-- Smooth inverse document frequency over the two documents:
`ln((1+2)/(1+df)) + 1`. -/
noncomputable def idf (d1 d2 : List String) (t : String) : ℝ :=
  Real.log (3 / (1 + ((if t ∈ d1 then (1 : ℝ) else 0) + (if t ∈ d2 then (1 : ℝ) else 0)))) + 1

/-- One tf-idf coordinate of document `doc` (before l2 normalisation). -/
noncomputable def pesoTfidf (doc d1 d2 : List String) (t : String) : ℝ :=
  (tf doc t : ℝ) * idf d1 d2 t

/-- Dot product of the two unnormalised tf-idf rows. -/
noncomputable def produtoInterno (d1 d2 : List String) : ℝ :=
  ((vocabulario d1 d2).map fun t => pesoTfidf d1 d1 d2 t * pesoTfidf d2 d1 d2 t).sum

/-- Squared l2 norm of one tf-idf row. -/
noncomputable def normaQuad (doc d1 d2 : List String) : ℝ :=
  ((vocabulario d1 d2).map fun t => pesoTfidf doc d1 d2 t ^ 2).sum

/-- Cosine similarity of the two tf-idf rows (`0` when a row is zero, as in
sklearn's `cosine_similarity` after l2 normalisation of zero rows). -/
noncomputable def cosSim (d1 d2 : List String) : ℝ :=
  if normaQuad d1 d1 d2 = 0 ∨ normaQuad d2 d1 d2 = 0 then 0
  else produtoInterno d1 d2 / (Real.sqrt (normaQuad d1 d1 d2) * Real.sqrt (normaQuad d2 d1 d2))

/-- `fit_transform` + `cosine_similarity` on `[texto1.lower(), texto2.lower()]`:
`none` models the `ValueError: empty vocabulary` raised when neither text
has a token. -/
noncomputable def similaridadeTfidf (texto1 texto2 : String) : Option ℝ :=
  if tokenize texto1 = [] ∧ tokenize texto2 = [] then none
  else some (cosSim (tokenize texto1) (tokenize texto2))

/-- `CombinadorRespostas.calcular_relevancia`: 0.0 for empty inputs, 0.0 when
vectorization raises, otherwise the cosine similarity. -/
noncomputable def calcularRelevancia (resposta pergunta : String) : ℝ :=
  if resposta = "" ∨ pergunta = "" then 0
  else (similaridadeTfidf pergunta resposta).getD 0

/-! ### Arithmetic facts about the scorer -/

theorem idf_nonneg (d1 d2 : List String) (t : String) : 0 ≤ idf d1 d2 t := by
  unfold idf
  have h : (1 : ℝ) ≤ 3 / (1 + ((if t ∈ d1 then (1 : ℝ) else 0) + (if t ∈ d2 then (1 : ℝ) else 0))) := by
    split <;> split <;> norm_num
  have := Real.log_nonneg h
  linarith

theorem idf_mem_both {d1 d2 : List String} {t : String} (h1 : t ∈ d1) (h2 : t ∈ d2) :
    idf d1 d2 t = 1 := by
  unfold idf
  rw [if_pos h1, if_pos h2]
  norm_num

theorem pesoTfidf_nonneg (doc d1 d2 : List String) (t : String) :
    0 ≤ pesoTfidf doc d1 d2 t :=
  mul_nonneg (Nat.cast_nonneg _) (idf_nonneg d1 d2 t)

theorem produtoInterno_nonneg (d1 d2 : List String) : 0 ≤ produtoInterno d1 d2 := by
  apply List.sum_nonneg
  intro x hx
  obtain ⟨t, _, rfl⟩ := List.mem_map.1 hx
  exact mul_nonneg (pesoTfidf_nonneg _ _ _ _) (pesoTfidf_nonneg _ _ _ _)

theorem normaQuad_nonneg (doc d1 d2 : List String) : 0 ≤ normaQuad doc d1 d2 := by
  apply List.sum_nonneg
  intro x hx
  obtain ⟨t, _, rfl⟩ := List.mem_map.1 hx
  exact sq_nonneg _

/-- Cauchy–Schwarz for the tf-idf rows, via `Finset` sums over the
(duplicate-free) vocabulary. -/
theorem produtoInterno_sq_le (d1 d2 : List String) :
    produtoInterno d1 d2 ^ 2 ≤ normaQuad d1 d1 d2 * normaQuad d2 d1 d2 := by
  have hnd : (vocabulario d1 d2).Nodup := List.nodup_dedup _
  have h1 := List.sum_toFinset (fun t => pesoTfidf d1 d1 d2 t * pesoTfidf d2 d1 d2 t) hnd
  have h2 := List.sum_toFinset (fun t => pesoTfidf d1 d1 d2 t ^ 2) hnd
  have h3 := List.sum_toFinset (fun t => pesoTfidf d2 d1 d2 t ^ 2) hnd
  unfold produtoInterno normaQuad
  rw [← h1, ← h2, ← h3]
  exact Finset.sum_mul_sq_le_sq_mul_sq _ _ _

theorem cosSim_nonneg (d1 d2 : List String) : 0 ≤ cosSim d1 d2 := by
  unfold cosSim
  split
  · exact le_refl 0
  · exact div_nonneg (produtoInterno_nonneg d1 d2)
      (mul_nonneg (Real.sqrt_nonneg _) (Real.sqrt_nonneg _))

theorem cosSim_le_one (d1 d2 : List String) : cosSim d1 d2 ≤ 1 := by
  unfold cosSim
  split
  · norm_num
  · rename_i h
    push_neg at h
    have hn1 : 0 < normaQuad d1 d1 d2 := lt_of_le_of_ne (normaQuad_nonneg _ _ _) (Ne.symm h.1)
    have hn2 : 0 < normaQuad d2 d1 d2 := lt_of_le_of_ne (normaQuad_nonneg _ _ _) (Ne.symm h.2)
    have hd : 0 < Real.sqrt (normaQuad d1 d1 d2) * Real.sqrt (normaQuad d2 d1 d2) := by
      exact mul_pos (Real.sqrt_pos.2 hn1) (Real.sqrt_pos.2 hn2)
    rw [div_le_one hd]
    have hsq : produtoInterno d1 d2 ^ 2 ≤
        (Real.sqrt (normaQuad d1 d1 d2) * Real.sqrt (normaQuad d2 d1 d2)) ^ 2 := by
      have heq : (Real.sqrt (normaQuad d1 d1 d2) * Real.sqrt (normaQuad d2 d1 d2)) ^ 2 =
          normaQuad d1 d1 d2 * normaQuad d2 d1 d2 := by
        rw [mul_pow, Real.sq_sqrt (le_of_lt hn1), Real.sq_sqrt (le_of_lt hn2)]
      rw [heq]
      exact produtoInterno_sq_le d1 d2
    nlinarith [produtoInterno_nonneg d1 d2, hd]

theorem mem_of_mem_vocabulario {d1 d2 : List String} {t : String}
    (h : t ∈ vocabulario d1 d2) : t ∈ d1 ∨ t ∈ d2 := by
  have := List.mem_dedup.1 h
  exact List.mem_append.1 this

/-- When both documents are the same non-empty token list, every vocabulary
term has idf 1 and the similarity is exactly 1. -/
theorem cosSim_self {d : List String} (hd : d ≠ []) : cosSim d d = 1 := by
  have hmem : ∀ t ∈ vocabulario d d, t ∈ d := by
    intro t ht
    rcases mem_of_mem_vocabulario ht with h | h <;> exact h
  have hpeso : ∀ t ∈ vocabulario d d, pesoTfidf d d d t = (tf d t : ℝ) := by
    intro t ht
    unfold pesoTfidf
    rw [idf_mem_both (hmem t ht) (hmem t ht), mul_one]
  have hdot : produtoInterno d d = normaQuad d d d := by
    unfold produtoInterno normaQuad
    apply congrArg
    apply List.map_congr_left
    intro t ht
    rw [hpeso t ht]
    ring
  have hpos : 0 < normaQuad d d d := by
    obtain ⟨t0, d', rfl⟩ : ∃ t0 d', d = t0 :: d' := by
      cases d with
      | nil => exact absurd rfl hd
      | cons a l => exact ⟨a, l, rfl⟩
    have ht0 : t0 ∈ vocabulario (t0 :: d') (t0 :: d') := by
      apply List.mem_dedup.2
      exact List.mem_append.2 (Or.inl (List.mem_cons_self _ _))
    have hterm : (1 : ℝ) ≤ pesoTfidf (t0 :: d') (t0 :: d') (t0 :: d') t0 ^ 2 := by
      rw [hpeso t0 ht0]
      have : (1 : ℕ) ≤ tf (t0 :: d') t0 := by
        have : t0 ∈ (t0 :: d') := List.mem_cons_self _ _
        exact List.count_pos_iff.2 this
      have h1 : (1 : ℝ) ≤ (tf (t0 :: d') t0 : ℝ) := by exact_mod_cast this
      nlinarith
    have hle : pesoTfidf (t0 :: d') (t0 :: d') (t0 :: d') t0 ^ 2 ≤
        ((vocabulario (t0 :: d') (t0 :: d')).map
          fun t => pesoTfidf (t0 :: d') (t0 :: d') (t0 :: d') t ^ 2).sum :=
      List.single_le_sum
        (fun x hx => by
          obtain ⟨t, _, rfl⟩ := List.mem_map.1 hx
          exact sq_nonneg _)
        (pesoTfidf (t0 :: d') (t0 :: d') (t0 :: d') t0 ^ 2)
        (List.mem_map.2 ⟨t0, ht0, rfl⟩)
    unfold normaQuad
    calc (0 : ℝ) < 1 := one_pos
    _ ≤ pesoTfidf (t0 :: d') (t0 :: d') (t0 :: d') t0 ^ 2 := hterm
    _ ≤ _ := hle
  unfold cosSim
  rw [if_neg (by push_neg; constructor <;> exact ne_of_gt hpos)]
  rw [hdot, Real.mul_self_sqrt (le_of_lt hpos)]
  exact div_self (ne_of_gt hpos)

/-- Documents sharing no token have zero similarity. -/
theorem cosSim_disjoint {d1 d2 : List String}
    (h : ∀ t, t ∈ d1 → t ∉ d2) : cosSim d1 d2 = 0 := by
  have hdot : produtoInterno d1 d2 = 0 := by
    unfold produtoInterno
    have : ∀ x ∈ (vocabulario d1 d2).map
        (fun t => pesoTfidf d1 d1 d2 t * pesoTfidf d2 d1 d2 t), x = 0 := by
      intro x hx
      obtain ⟨t, _, rfl⟩ := List.mem_map.1 hx
      unfold pesoTfidf tf
      by_cases h1 : t ∈ d1
      · have h2 : t ∉ d2 := h t h1
        have : List.count t d2 = 0 := List.count_eq_zero.2 h2
        rw [this]
        push_cast
        ring
      · have : List.count t d1 = 0 := List.count_eq_zero.2 h1
        rw [this]
        push_cast
        ring
    exact List.sum_eq_zero this
  unfold cosSim
  split
  · rfl
  · rw [hdot, zero_div]

/-! Computable rational views of the tf-idf sums, valid when every vocabulary
term occurs in both documents (all idf weights are then 1).  They let the
similarity of concrete inputs be evaluated exactly. -/

/-- Dot product with all-1 idf weights (ℕ valued, computable). -/
def produtoInternoNat (d1 d2 : List String) : ℕ :=
  ((vocabulario d1 d2).map fun t => tf d1 t * tf d2 t).sum

/-- Squared norm with all-1 idf weights (ℕ valued, computable). -/
def normaQuadNat (doc d1 d2 : List String) : ℕ :=
  ((vocabulario d1 d2).map fun t => tf doc t ^ 2).sum

theorem produtoInterno_eq_nat {d1 d2 : List String}
    (h : ∀ t ∈ vocabulario d1 d2, t ∈ d1 ∧ t ∈ d2) :
    produtoInterno d1 d2 = (produtoInternoNat d1 d2 : ℝ) := by
  unfold produtoInterno produtoInternoNat
  rw [Nat.cast_list_sum, List.map_map]
  apply congrArg
  apply List.map_congr_left
  intro t ht
  unfold pesoTfidf
  rw [idf_mem_both (h t ht).1 (h t ht).2]
  simp only [Function.comp]
  push_cast
  ring

theorem normaQuad_eq_nat {doc d1 d2 : List String}
    (h : ∀ t ∈ vocabulario d1 d2, t ∈ d1 ∧ t ∈ d2) :
    normaQuad doc d1 d2 = (normaQuadNat doc d1 d2 : ℝ) := by
  unfold normaQuad normaQuadNat
  rw [Nat.cast_list_sum, List.map_map]
  apply congrArg
  apply List.map_congr_left
  intro t ht
  unfold pesoTfidf
  rw [idf_mem_both (h t ht).1 (h t ht).2]
  simp only [Function.comp]
  push_cast
  ring

/-! ### Facts about `calcular_relevancia` itself -/

theorem calcularRelevancia_nonneg (resposta pergunta : String) :
    0 ≤ calcularRelevancia resposta pergunta := by
  unfold calcularRelevancia similaridadeTfidf
  split
  · exact le_refl 0
  · split
    · exact le_refl 0
    · exact cosSim_nonneg _ _

theorem calcularRelevancia_le_one (resposta pergunta : String) :
    calcularRelevancia resposta pergunta ≤ 1 := by
  unfold calcularRelevancia similaridadeTfidf
  split
  · norm_num
  · split
    · norm_num
    · exact cosSim_le_one _ _

/-- Empty input, empty vocabulary, or disjoint vocabularies all yield 0. -/
theorem calcularRelevancia_zero {resposta pergunta : String}
    (h : resposta = "" ∨ pergunta = "" ∨ ∀ t, t ∈ tokenize resposta → t ∉ tokenize pergunta) :
    calcularRelevancia resposta pergunta = 0 := by
  unfold calcularRelevancia similaridadeTfidf
  rcases h with h | h | h
  · rw [if_pos (Or.inl h)]
  · rw [if_pos (Or.inr h)]
  · split
    · rfl
    · split
      · rfl
      · simp only [Option.getD_some]
        exact cosSim_disjoint (fun t ht1 ht2 => h t ht2 ht1)

/-- The empty string has no tokens. -/
theorem tokenize_empty : tokenize "" = [] := by decide

/-- Texts with the same non-empty token list score exactly 1. -/
theorem calcularRelevancia_tokens_iguais {resposta pergunta : String}
    (heq : tokenize resposta = tokenize pergunta) (hne : tokenize resposta ≠ []) :
    calcularRelevancia resposta pergunta = 1 := by
  have hr : resposta ≠ "" := by
    intro h
    rw [h] at hne
    exact hne tokenize_empty
  have hp : pergunta ≠ "" := by
    intro h
    rw [heq, h] at hne
    exact hne tokenize_empty
  unfold calcularRelevancia similaridadeTfidf
  rw [if_neg (by push_neg; exact ⟨hr, hp⟩)]
  rw [if_neg (by rw [heq]; push_neg; intro h; rw [heq] at hne; exact absurd h hne)]
  simp only [Option.getD_some]
  rw [heq]
  exact cosSim_self (by rw [heq] at hne; exact hne)

/-! ### The response combiner (`CombinadorRespostas`)

Python dicts are modelled as insertion-ordered association lists.  The
stable descending `list.sort(key=..., reverse=True)` of CPython (Timsort)
is modelled by `List.insertionSort` with a relation that holds on ties,
which is stable in the same way. -/

/-- Python truthiness of an optional string (`None` and `""` are falsy). -/
def pyTruthyStr : Option String → Bool
  | none => false
  | some s => !(s = "")

/-- The validity filter `v and len(v.strip()) >= 10` used both by
`combinar_respostas` and by `ranquear_respostas`. -/
def respostaValida : Option String → Bool
  | none => false
  | some s => !(s = "") && decide (10 ≤ (pyStrip s).length)

/-- `{k: v for k, v in respostas.items() if v and len(v.strip()) >= 10}`. -/
def respostasValidas (respostas : List (String × Option String)) :
    List (String × Option String) :=
  respostas.filter fun kv => respostaValida kv.2

/-- Descending-by-score order on ranking entries (`(fonte, resposta, score)`);
it holds on ties, so the stable insertion sort keeps the original order of
equal scores, like Python's stable sort. -/
def relScore (a b : String × String × ℝ) : Prop := b.2.2 ≤ a.2.2

noncomputable instance : DecidableRel relScore :=
  fun a b => inferInstanceAs (Decidable (b.2.2 ≤ a.2.2))

instance : IsTotal (String × String × ℝ) relScore :=
  ⟨fun a b => le_total b.2.2 a.2.2⟩

instance : IsTrans (String × String × ℝ) relScore :=
  ⟨fun _ _ _ h1 h2 => le_trans h2 h1⟩

/-- Descending-by-score order on `(sentence, score)` pairs. -/
def relPar (a b : String × ℝ) : Prop := b.2 ≤ a.2

noncomputable instance : DecidableRel relPar :=
  fun a b => inferInstanceAs (Decidable (b.2 ≤ a.2))

instance : IsTotal (String × ℝ) relPar := ⟨fun a b => le_total b.2 a.2⟩

instance : IsTrans (String × ℝ) relPar := ⟨fun _ _ _ h1 h2 => le_trans h2 h1⟩

/-- The loop body of `ranquear_respostas`: score an entry if it is valid. -/
noncomputable def filtroRanking (pergunta : String) (kv : String × Option String) :
    Option (String × String × ℝ) :=
  match kv.2 with
  | some s =>
    if respostaValida (some s) then some (kv.1, s, calcularRelevancia s pergunta) else none
  | none => none

/-- `CombinadorRespostas.ranquear_respostas`: filter the valid entries, score
them, sort descending (stable). -/
noncomputable def ranquearRespostas (respostas : List (String × Option String))
    (pergunta : String) : List (String × String × ℝ) :=
  (respostas.filterMap (filtroRanking pergunta)).insertionSort relScore

/-- The loop of `remover_duplicatas`: keep a sentence unless some
already-kept sentence is similar above the threshold; a vectorizer error
for a pair (`none` similarity) skips only that pair (`continue`). -/
noncomputable def removerDuplicatasAux (limiar : ℝ) :
    List String → List String → List String
  | [], unicas => unicas
  | s :: resto, unicas =>
    if ∃ u ∈ unicas, ∃ σ, similaridadeTfidf s u = some σ ∧ limiar ≤ σ then
      removerDuplicatasAux limiar resto unicas
    else removerDuplicatasAux limiar resto (unicas ++ [s])

/-- `CombinadorRespostas.remover_duplicatas`. -/
noncomputable def removerDuplicatas (sentencas : List String) (limiar : ℝ) : List String :=
  removerDuplicatasAux limiar sentencas []

/-- `CombinadorRespostas.extrair_sentencas_relevantes`: all sentences if few,
otherwise the top `maxSentencas` by score, re-emitted in original text
order. -/
noncomputable def extrairSentencasRelevantes (resposta pergunta : String)
    (maxSentencas : ℕ) : List String :=
  let sentencas := extrairSentencas resposta none
  if sentencas = [] then []
  else if sentencas.length ≤ maxSentencas then sentencas
  else
    let comScore := sentencas.map fun s => (s, calcularRelevancia s pergunta)
    let ordenadas := comScore.insertionSort relPar
    let top := (ordenadas.take maxSentencas).map fun par => par.1
    sentencas.filter fun s => top.contains s

/-- The sentence post-filter of `combinar_respostas` (steps `num_count`,
short-sentence, leading-symbol); the float comparison
`num_count > len(sentenca) * 0.3` is modelled by the exact rational
comparison, written with cleared denominators (`3*len < 10*num_count`). -/
def sentencaLixo (s : String) : Bool :=
  decide (3 * s.length < 10 * (s.data.countP fun c => c.isDigit))
  || decide (s.length < 20)
  || (!(s = "") && !(s.data.headD ' ').isAlphanum)

/-- The shared tail of `combinar_respostas` (from `if not sentencas` to the
final `return`): join, clean, re-extract, filter garbage sentences, join. -/
def posProcessar (sentencas : List String) : Option String :=
  if sentencas = [] then none
  else
    let respostaFinal := limparTexto (juntarSentencas sentencas)
    let limpas := extrairSentencas respostaFinal none
    let filtradas := limpas.filter fun s => !sentencaLixo s
    if filtradas = [] then none
    else some (juntarSentencas filtradas)

/-- `CombinadorRespostas.combinar_respostas`, with the would-be
`IndexError` of `ranking[0]` on an empty ranking made explicit as
`Except.error` (it is proved unreachable below). -/
noncomputable def combinarRespostasAux (respostas : List (String × Option String))
    (pergunta tipoPergunta : String) (maxSentencas : ℕ) :
    Except String (Option String) :=
  let validas := respostasValidas respostas
  if validas = [] then .ok none
  else if validas.length = 1 then
    .ok (some (juntarSentencas
      (extrairSentencasRelevantes ((validas.headD ("", none)).2.getD "") pergunta maxSentencas)))
  else
    let ranking := ranquearRespostas validas pergunta
    if tipoPergunta = "qual" ∨ tipoPergunta = "quem" ∨ tipoPergunta = "quanto" then
      match ranking with
      | [] => .error "IndexError"
      | melhor :: _ =>
        .ok (posProcessar (extrairSentencasRelevantes melhor.2.1 pergunta maxSentencas))
    else if tipoPergunta = "como" ∨ tipoPergunta = "porque" then
      let todas := (((ranking.take 3).filter fun e => decide ((0.1 : ℝ) < e.2.2)).map
        fun e => extrairSentencasRelevantes e.2.1 pergunta 3).flatten
      .ok (posProcessar ((removerDuplicatas todas (0.7 : ℝ)).take maxSentencas))
    else
      let todas := (((ranking.take 2).filter fun e => decide ((0.05 : ℝ) < e.2.2)).map
        fun e => extrairSentencasRelevantes e.2.1 pergunta 2).flatten
      .ok (posProcessar ((removerDuplicatas todas (0.75 : ℝ)).take maxSentencas))

/-- `combinar_respostas` as seen by callers (the error branch is
unreachable, see `combinarRespostasAux_ok`). -/
noncomputable def combinarRespostas (respostas : List (String × Option String))
    (pergunta tipoPergunta : String) (maxSentencas : ℕ) : Option String :=
  match combinarRespostasAux respostas pergunta tipoPergunta maxSentencas with
  | .ok v => v
  | .error _ => none

/-- `CombinadorRespostas.combinar_com_fonte_principal` (`max_sentencas`
defaults to 6 in the inner call). -/
noncomputable def combinarComFontePrincipal (respostas : List (String × Option String))
    (pergunta tipoPergunta : String) : Option String × Option String :=
  let resposta := combinarRespostas respostas pergunta tipoPergunta 6
  if pyTruthyStr resposta then
    match ranquearRespostas respostas pergunta with
    | [] => (resposta, some "desconhecido")
    | melhor :: resto =>
      if 0 < resto.length ∧ (tipoPergunta = "como" ∨ tipoPergunta = "porque") then
        (resposta, some (String.intercalate "+"
          ((((melhor :: resto).filter fun e => decide ((0.1 : ℝ) < e.2.2)).map
            fun e => e.1).take 3)))
      else (resposta, some melhor.1)
  else (none, none)

/-! ### The fan-out scheduler (`BuscadorUnificado.buscar_inteligente`)

The thread pool is abstracted by an oracle describing one execution: the
completion events `(fonte, tempo, resultado)` of the futures that completed
before the overall timeout, in completion order (`as_completed` order), and
a flag `pendentes` saying whether futures were still pending when the
overall timeout expired — in which case `as_completed` raises
`concurrent.futures.TimeoutError` at the loop head, outside the
`try`/`except` of the body, modelled as `Except.error ()`.  Each adapter's
internal failures are already folded into its event's `resultado` (the
wrapper `_buscar_com_timeout` maps every exception to `None`). -/

/-- One completed future: source name, elapsed seconds at collection, and
the adapter's result. -/
structure Evento where
  fonte : String
  tempo : ℚ
  resultado : Option String
deriving DecidableEq

/-- `resultados[fonte] = r` on an insertion-ordered dict. -/
def dictInsert (m : List (String × Option String)) (k : String) (v : Option String) :
    List (String × Option String) :=
  if m.any fun kv => kv.1 = k then
    m.map fun kv => if kv.1 = k then (k, v) else kv
  else m ++ [(k, v)]

/-- `sum(1 for r in resultados.values() if r and len(r) > 100)`. -/
def contaBoas (m : List (String × Option String)) : ℕ :=
  m.countP fun kv =>
    match kv.2 with
    | some r => decide (100 < r.length)
    | none => false

/-- The collection loop of `buscar_inteligente`: consume completion events
in order; break (returning the dict built so far) when the elapsed time reaches
the overall timeout or when two substantial results have been collected;
raise when the events are exhausted but futures are still pending. -/
def coletar (timeoutTotal : ℚ) :
    List Evento → List (String × Option String) → Bool →
    Except Unit (List (String × Option String))
  | [], resultados, pendentes => if pendentes then .error () else .ok resultados
  | e :: resto, resultados, pendentes =>
    if timeoutTotal ≤ e.tempo then .ok resultados
    else
      let resultados2 := dictInsert resultados e.fonte e.resultado
      if 2 ≤ contaBoas resultados2 then .ok resultados2
      else coletar timeoutTotal resto resultados2 pendentes

/-- The keys of the adapter registry `fontes_disponiveis` (and of the
per-source timeout table), in insertion order. -/
def fontesDisponiveisKeys : List String :=
  ["wolfram", "google", "duckduckgo", "wikipedia", "arxiv", "dbpedia", "youtube"]

/-- The sources actually submitted to the pool: the prioritised list (all
registry keys when the argument is `None` or empty — Python truthiness),
truncated to `max_fontes`, keeping only registry members. -/
def fontesABuscar (fontesPriorizadas : Option (List String)) (maxFontes : ℕ) :
    List String :=
  let fp :=
    match fontesPriorizadas with
    | none => fontesDisponiveisKeys
    | some [] => fontesDisponiveisKeys
    | some l => l
  (fp.take maxFontes).filter fun f => fontesDisponiveisKeys.contains f

/-- `buscar_inteligente` for one pool execution described by the oracle
(`eventos`, `pendentes`): runs the collection loop from an empty dict. -/
def buscarInteligente (fontesPriorizadas : Option (List String)) (maxFontes : ℕ)
    (timeoutTotal : ℚ) (eventos : List Evento) (pendentes : Bool) :
    Except Unit (List (String × Option String)) :=
  coletar timeoutTotal eventos [] pendentes

/-- Consistency of an oracle with the submitted sources: events concern
distinct submitted sources, and if no futures were pending at the deadline
then every submitted source has a completion event. -/
def escalonamentoValido (fontes : List String) (eventos : List Evento)
    (pendentes : Bool) : Prop :=
  (eventos.map Evento.fonte).Nodup ∧
  (∀ e ∈ eventos, e.fonte ∈ fontes) ∧
  (pendentes = false → ∀ f ∈ fontes, f ∈ eventos.map Evento.fonte)

/-! ### The source selection policy (`EstrategiaBusca`) -/

/-- The static priority map `EstrategiaBusca.prioridades`. -/
def prioridades : List (String × List String) :=
  [("calculo", ["wolfram"]),
   ("conversao", ["wolfram", "google"]),
   ("definicao", ["wikipedia", "duckduckgo", "google"]),
   ("historico", ["wikipedia", "google", "duckduckgo"]),
   ("cientifico", ["arxiv", "wikipedia", "google"]),
   ("processo", ["youtube", "wikipedia", "google"]),
   ("localizacao", ["google", "wikipedia"]),
   ("comparacao", ["google", "wikipedia"]),
   ("lista", ["wikipedia", "google"]),
   ("atual", ["google", "duckduckgo"])]

/-- The question-analysis dict as read by `selecionar_fontes`:
`analise.get("tipo_especializado", "geral")` and
`analise.get("contexto_temporal", {}).get("contexto_temporal", "neutro")`
(outer `none` = key absent, inner `none` = nested key absent). -/
structure Analise where
  tipoEspecializado : Option String
  contextoTemporal : Option (Option String)

/-- `EstrategiaBusca.selecionar_fontes`. -/
def selecionarFontes (analise : Analise) : List String :=
  let tipo := analise.tipoEspecializado.getD "geral"
  let contexto := (analise.contextoTemporal.getD none).getD "neutro"
  match prioridades.lookup tipo with
  | some fontes => fontes
  | none =>
    if contexto = "atual" then ["google", "duckduckgo", "wikipedia"]
    else if contexto = "historico" then ["wikipedia", "google"]
    else ["wolfram", "google", "wikipedia", "duckduckgo"]

/-! ### Claim C8 — fallback source selection -/

/-- C8 (amended): when the specialized category is not in the static
priority map and the temporal context is neither "atual" nor "historico",
`selecionar_fontes` returns the fixed four-source list
`["wolfram", "google", "wikipedia", "duckduckgo"]` — a subset of the
seven-key adapter registry, not the full registry. -/
theorem c8_selecao_fallback_amended (tipoEsp : Option String) (ctx : Option (Option String))
    (h1 : prioridades.lookup (tipoEsp.getD "geral") = none)
    (h2 : (ctx.getD none).getD "neutro" ≠ "atual")
    (h3 : (ctx.getD none).getD "neutro" ≠ "historico") :
    selecionarFontes ⟨tipoEsp, ctx⟩ = ["wolfram", "google", "wikipedia", "duckduckgo"] ∧
    (∀ f ∈ selecionarFontes ⟨tipoEsp, ctx⟩, f ∈ fontesDisponiveisKeys) ∧
    selecionarFontes ⟨tipoEsp, ctx⟩ ≠ fontesDisponiveisKeys := by
  have hsel : selecionarFontes ⟨tipoEsp, ctx⟩ = ["wolfram", "google", "wikipedia", "duckduckgo"] := by
    unfold selecionarFontes
    simp only [h1]
    rw [if_neg h2, if_neg h3]
  refine ⟨hsel, ?_, ?_⟩
  · rw [hsel]
    decide
  · rw [hsel]
    decide

/-- Witness for C8 at a concrete unrecognised category with absent temporal
context. -/
theorem c8_selecao_fallback_amended_witness :
    selecionarFontes ⟨some "saudacao", none⟩ = ["wolfram", "google", "wikipedia", "duckduckgo"] ∧
    (∀ f ∈ selecionarFontes ⟨some "saudacao", none⟩, f ∈ fontesDisponiveisKeys) ∧
    selecionarFontes ⟨some "saudacao", none⟩ ≠ fontesDisponiveisKeys :=
  c8_selecao_fallback_amended (some "saudacao") none (by decide) (by decide) (by decide)

/-- Counterexample to C8 as stated: for the unrecognised category
"saudacao" with neutral temporal context, the policy returns only four
sources, while the adapter registry has seven keys — "arxiv" is available
but not selected. -/
theorem c8_selecao_cex :
    selecionarFontes ⟨some "saudacao", some (some "neutro")⟩ =
      ["wolfram", "google", "wikipedia", "duckduckgo"] ∧
    "arxiv" ∈ fontesDisponiveisKeys ∧
    "arxiv" ∉ selecionarFontes ⟨some "saudacao", some (some "neutro")⟩ := by
  refine ⟨?_, by decide, ?_⟩ <;> decide

/-! ### Claim C5 — self-similarity of the relevance scorer -/

/-- C5 (amended): self-similarity is 1 for every text from which the
vectorizer extracts at least one token (a `\w`-run of length ≥ 2).  For a
non-empty text with no token the vectorizer raises "empty vocabulary" and
the scorer degrades to 0.0 instead. -/
theorem c5_auto_similaridade_amended (t : String) (hne : tokenize t ≠ []) :
    calcularRelevancia t t = 1 :=
  calcularRelevancia_tokens_iguais rfl hne

/-- Witness for the amended C5 at `"paris"`. -/
theorem c5_auto_similaridade_amended_witness :
    tokenize "paris" ≠ [] ∧ calcularRelevancia "paris" "paris" = 1 :=
  ⟨by decide, c5_auto_similaridade_amended "paris" (by decide)⟩

/-- Counterexample to C5 as stated: `"a"` is a non-empty text, but its
self-similarity is 0.0, not 1.0 — the single-character token is dropped by
the `\b\w\w+\b` token pattern, `fit_transform` raises "empty vocabulary",
and the bare `except` returns 0.0. -/
theorem c5_auto_similaridade_cex :
    ("a" : String) ≠ "" ∧ calcularRelevancia "a" "a" = 0 ∧ (0 : ℝ) ≠ 1 :=
  ⟨by decide, calcularRelevancia_zero (Or.inr (Or.inr (by decide))), by norm_num⟩

/-! ### Claim C6 — range and degradation of the relevance scorer -/

/-- C6: the scorer is a total function into `[0, 1]` (the model of "never
raises" — every internal failure is folded into a value), and it returns
exactly 0.0 when either text is empty or when the texts share no token
(which covers the "empty vocabulary" `ValueError` of the vectorizer, caught
by the bare `except`). -/
theorem c6_score_intervalo (resposta pergunta : String) :
    (0 ≤ calcularRelevancia resposta pergunta ∧ calcularRelevancia resposta pergunta ≤ 1) ∧
    ((resposta = "" ∨ pergunta = "" ∨ ∀ t ∈ tokenize resposta, t ∉ tokenize pergunta) →
      calcularRelevancia resposta pergunta = 0) :=
  ⟨⟨calcularRelevancia_nonneg resposta pergunta, calcularRelevancia_le_one resposta pergunta⟩,
   fun h => calcularRelevancia_zero h⟩

/-- Witness for C6 at a concrete disjoint-vocabulary pair. -/
theorem c6_score_intervalo_witness :
    (0 ≤ calcularRelevancia "o sol brilha forte" "qual a capital" ∧
      calcularRelevancia "o sol brilha forte" "qual a capital" ≤ 1) ∧
    calcularRelevancia "o sol brilha forte" "qual a capital" = 0 := by
  have h := c6_score_intervalo "o sol brilha forte" "qual a capital"
  exact ⟨h.1, h.2 (Or.inr (Or.inr (by decide)))⟩

/-! ### Claim C9 — invariants of the ranking -/

/-- C9: every ranking produced by `ranquear_respostas` is sorted descending
by relevance score, every score lies in `[0, 1]`, and an entry appears only
for map entries whose text is non-`None` and at least 10 characters after
stripping (the entry carrying that source's name, text and score). -/
theorem c9_ranking_invariantes (respostas : List (String × Option String)) (pergunta : String) :
    (ranquearRespostas respostas pergunta).Sorted relScore ∧
    ∀ e ∈ ranquearRespostas respostas pergunta,
      (0 ≤ e.2.2 ∧ e.2.2 ≤ 1) ∧
      e.2.2 = calcularRelevancia e.2.1 pergunta ∧
      (e.1, some e.2.1) ∈ respostas ∧
      e.2.1 ≠ "" ∧ 10 ≤ (pyStrip e.2.1).length := by
  constructor
  · exact List.sorted_insertionSort relScore _
  · intro e he
    unfold ranquearRespostas at he
    have hperm := List.perm_insertionSort relScore (respostas.filterMap (filtroRanking pergunta))
    have hmem := hperm.mem_iff.1 he
    obtain ⟨kv, hkv, hf⟩ := List.mem_filterMap.1 hmem
    obtain ⟨k, v⟩ := kv
    unfold filtroRanking at hf
    cases v with
    | none =>
      have hf2 : (none : Option (String × String × ℝ)) = some e := hf
      exact absurd hf2 (by simp)
    | some s =>
      have hf2 : (if respostaValida (some s) = true
          then some (k, s, calcularRelevancia s pergunta) else none) = some e := hf
      by_cases hva : respostaValida (some s) = true
      · rw [if_pos hva] at hf2
        have he2 : e = (k, s, calcularRelevancia s pergunta) :=
          (Option.some_injective _ hf2).symm
        subst he2
        have hval : s ≠ "" ∧ 10 ≤ (pyStrip s).length := by
          unfold respostaValida at hva
          simp only [Bool.and_eq_true, Bool.not_eq_true', decide_eq_true_eq] at hva
          exact ⟨by simpa using hva.1, hva.2⟩
        exact ⟨⟨calcularRelevancia_nonneg _ _, calcularRelevancia_le_one _ _⟩, rfl, hkv,
          hval.1, hval.2⟩
      · rw [if_neg hva] at hf2
        exact absurd hf2 (by simp)

/-! ### Supporting lemmas for the fusion engine -/

theorem juntarAux_length (s : String) (rest : List String) :
    s.length ≤ (juntarAux (s :: rest)).length := by
  cases rest with
  | nil => exact le_refl _
  | cons b l =>
    show s.length ≤ (s ++ " " ++ juntarAux (b :: l)).length
    rw [String.length_append, String.length_append]
    omega

theorem length_pos_of_ne_empty {s : String} (hs : s ≠ "") : 0 < s.length := by
  cases he : s.data with
  | nil =>
    exact absurd (by cases s with | mk d => cases he; rfl) hs
  | cons c cs =>
    show 0 < s.data.length
    rw [he]
    simp

theorem juntarSentencas_ne_empty {s : String} {rest : List String} (hs : s ≠ "") :
    juntarSentencas (s :: rest) ≠ "" := by
  have hlen : 0 < s.length := length_pos_of_ne_empty hs
  have htex : 0 < (juntarAux (s :: rest)).length :=
    lt_of_lt_of_le hlen (juntarAux_length s rest)
  unfold juntarSentencas
  rw [if_neg (by simp)]
  dsimp only
  split
  · intro h
    have hcl := congrArg String.length h
    rw [String.length_append] at hcl
    have hdot : (("." : String)).length = 1 := rfl
    have hnil : (("" : String)).length = 0 := rfl
    omega
  · intro h
    rw [h] at htex
    simp at htex

/-- A sentence kept by the final garbage filter is at least 20 characters
long, hence non-empty. -/
theorem mem_filtro_lixo_ne_empty {s : String} (h : sentencaLixo s = false) : s ≠ "" := by
  unfold sentencaLixo at h
  simp only [Bool.or_eq_false_iff, decide_eq_false_iff_not, not_lt] at h
  intro he
  have := h.1.2
  rw [he] at this
  simp at this

/-- `posProcessar` never returns `some ""`: a surviving sentence has at
least 20 characters, so the final join is non-empty. -/
theorem posProcessar_ne_some_empty (sentencas : List String) :
    posProcessar sentencas ≠ some "" := by
  unfold posProcessar
  split
  · simp
  · dsimp only
    split
    · simp
    · rename_i hfil
      intro h
      have hjun := Option.some_injective _ h
      match hl : (extrairSentencas (limparTexto (juntarSentencas sentencas)) none).filter
          (fun s => !sentencaLixo s) with
      | [] => rw [hl] at hfil; exact hfil rfl
      | f :: resto =>
        rw [hl] at hjun
        have hf : sentencaLixo f = false := by
          have : f ∈ (extrairSentencas (limparTexto (juntarSentencas sentencas)) none).filter
              (fun s => !sentencaLixo s) := by
            rw [hl]; exact List.mem_cons_self _ _
          have := List.of_mem_filter this
          simpa using this
        exact juntarSentencas_ne_empty (mem_filtro_lixo_ne_empty hf) hjun

/-- On a list of all-valid entries, the ranking filter keeps everything. -/
theorem filterMap_filtroRanking_length (pergunta : String) :
    ∀ l : List (String × Option String), (∀ kv ∈ l, respostaValida kv.2 = true) →
      (l.filterMap (filtroRanking pergunta)).length = l.length := by
  intro l
  induction l with
  | nil => intro _; rfl
  | cons kv resto ih =>
    intro hall
    obtain ⟨k, v⟩ := kv
    have hv := hall (k, v) (List.mem_cons_self _ _)
    cases v with
    | none => exact absurd hv (by simp [respostaValida])
    | some s =>
      have hstep : filtroRanking pergunta (k, some s) =
          some (k, s, calcularRelevancia s pergunta) := by
        show (if respostaValida (some s) = true
            then some (k, s, calcularRelevancia s pergunta) else none) =
          some (k, s, calcularRelevancia s pergunta)
        rw [if_pos hv]
      rw [List.filterMap_cons, hstep]
      have := ih fun kv hkv => hall kv (List.mem_cons_of_mem _ hkv)
      simp [this]

/-- Every entry of a filtered map is valid, so the internal re-filter of
`ranquear_respostas` keeps all of them: the ranking has one entry per valid
map entry. -/
theorem ranquear_length_validas (respostas : List (String × Option String)) (pergunta : String) :
    (ranquearRespostas (respostasValidas respostas) pergunta).length =
      (respostasValidas respostas).length := by
  unfold ranquearRespostas
  rw [(List.perm_insertionSort relScore _).length_eq]
  refine filterMap_filtroRanking_length pergunta _ fun kv hkv => ?_
  have hkv2 : kv ∈ respostas.filter (fun kv => respostaValida kv.2) := hkv
  simpa using List.of_mem_filter hkv2

theorem respostasValidas_two_le_ranking {respostas : List (String × Option String)}
    (pergunta : String) (h : 2 ≤ (respostasValidas respostas).length) :
    ∃ m r, ranquearRespostas (respostasValidas respostas) pergunta = m :: r := by
  have hlen := ranquear_length_validas respostas pergunta
  match hm : ranquearRespostas (respostasValidas respostas) pergunta with
  | [] =>
    rw [hm] at hlen
    simp at hlen
    omega
  | m :: r => exact ⟨m, r, rfl⟩

/-- With at least two valid entries, `combinar_respostas` goes through the
multi-source path and returns the post-processing of some sentence list. -/
theorem combinar_multi_posProcessar (respostas : List (String × Option String))
    (pergunta tipo : String) (ms : ℕ) (h2 : 2 ≤ (respostasValidas respostas).length) :
    ∃ l, combinarRespostas respostas pergunta tipo ms = posProcessar l := by
  have hne : ¬respostasValidas respostas = [] := by
    intro h
    rw [h] at h2
    simp at h2
  have hne1 : ¬(respostasValidas respostas).length = 1 := by omega
  have haux : ∃ l, combinarRespostasAux respostas pergunta tipo ms = .ok (posProcessar l) := by
    unfold combinarRespostasAux
    dsimp only
    rw [if_neg hne, if_neg hne1]
    split
    · obtain ⟨m, r, hmr⟩ := respostasValidas_two_le_ranking pergunta h2
      rw [hmr]
      exact ⟨_, rfl⟩
    · split
      · exact ⟨_, rfl⟩
      · exact ⟨_, rfl⟩
  obtain ⟨l, hl⟩ := haux
  refine ⟨l, ?_⟩
  unfold combinarRespostas
  rw [hl]

/-! ### Claim C4 — failure semantics of the fusion engine -/

/-- C4: the fusion engine is a total function (its would-be `IndexError`
branch is unreachable — first conjunct); it returns `None` when every map
entry is `None` or under 10 characters after stripping (second conjunct);
in the multi-source path it never returns the empty string, because the
post-processing either returns `None` or a join of sentences of at least
20 characters (third conjunct); and whenever the final garbage filter
removes every sentence the result is `None`, not `""` (fourth conjunct). -/
theorem c4_fusao_semantica_falha (respostas : List (String × Option String))
    (pergunta tipo : String) (ms : ℕ) :
    (∃ v, combinarRespostasAux respostas pergunta tipo ms = .ok v) ∧
    ((∀ kv ∈ respostas, respostaValida kv.2 = false) →
      combinarRespostas respostas pergunta tipo ms = none) ∧
    (2 ≤ (respostasValidas respostas).length →
      combinarRespostas respostas pergunta tipo ms ≠ some "") ∧
    (∀ sentencas : List String,
      (extrairSentencas (limparTexto (juntarSentencas sentencas)) none).filter
        (fun s => !sentencaLixo s) = [] →
      posProcessar sentencas = none) := by
  refine ⟨?_, ?_, ?_, ?_⟩
  · unfold combinarRespostasAux
    dsimp only
    split
    · exact ⟨none, rfl⟩
    · split
      · exact ⟨_, rfl⟩
      · rename_i hne hne1
        have h2 : 2 ≤ (respostasValidas respostas).length := by
          have : (respostasValidas respostas).length ≠ 0 := by
            intro h
            exact hne (List.length_eq_zero.1 h)
          omega
        split
        · obtain ⟨m, r, hmr⟩ := respostasValidas_two_le_ranking pergunta h2
          rw [hmr]
          exact ⟨_, rfl⟩
        · split
          · exact ⟨_, rfl⟩
          · exact ⟨_, rfl⟩
  · intro hall
    have hnil : respostasValidas respostas = [] := by
      unfold respostasValidas
      rw [List.filter_eq_nil_iff]
      intro kv hkv
      rw [hall kv hkv]
      simp
    unfold combinarRespostas combinarRespostasAux
    dsimp only
    rw [if_pos hnil]
  · intro h2
    obtain ⟨l, hl⟩ := combinar_multi_posProcessar respostas pergunta tipo ms h2
    rw [hl]
    exact posProcessar_ne_some_empty l
  · intro sentencas hfil
    unfold posProcessar
    split
    · rfl
    · dsimp only
      rw [if_pos hfil]

/-- Witness for C4, discharging each conditional conjunct at a concrete
input: an all-invalid map, a two-valid-source map, and a sentence list whose
post-filter is empty. -/
theorem c4_fusao_semantica_falha_witness :
    combinarRespostas [("s1", none), ("s2", some "curta")] "pergunta" "qual" 6 = none ∧
    combinarRespostas
      [("s1", some "Uma resposta bastante longa."), ("s2", some "Outra resposta bastante longa.")]
      "pergunta" "qual" 6 ≠ some "" ∧
    posProcessar ["Problema xyz."] = none := by
  refine ⟨?_, ?_, ?_⟩
  · exact (c4_fusao_semantica_falha [("s1", none), ("s2", some "curta")] "pergunta" "qual" 6).2.1
      (by decide)
  · exact (c4_fusao_semantica_falha
      [("s1", some "Uma resposta bastante longa."), ("s2", some "Outra resposta bastante longa.")]
      "pergunta" "qual" 6).2.2.1 (by decide)
  · exact (c4_fusao_semantica_falha [] "pergunta" "qual" 6).2.2.2 ["Problema xyz."] (by decide)

theorem filtroRanking_none_of_invalid {pergunta : String} {kv : String × Option String}
    (h : respostaValida kv.2 = false) : filtroRanking pergunta kv = none := by
  obtain ⟨k, v⟩ := kv
  cases v with
  | none => rfl
  | some s =>
    show (if respostaValida (some s) = true
        then some (k, s, calcularRelevancia s pergunta) else none) = none
    rw [if_neg (by simp only [h]; simp)]

/-- Pre-filtering the map by validity does not change the ranking: the
ranking of `combinar_respostas` (over the filtered dict) and the one of
`combinar_com_fonte_principal` (over the raw dict) coincide. -/
theorem ranquear_respostasValidas_eq (respostas : List (String × Option String))
    (pergunta : String) :
    ranquearRespostas (respostasValidas respostas) pergunta =
      ranquearRespostas respostas pergunta := by
  unfold ranquearRespostas
  apply congrArg
  unfold respostasValidas
  induction respostas with
  | nil => rfl
  | cons kv resto ih =>
    by_cases hv : respostaValida kv.2 = true
    · rw [List.filter_cons_of_pos (by simpa using hv), List.filterMap_cons, List.filterMap_cons, ih]
    · have hv2 : respostaValida kv.2 = false := by
        cases h : respostaValida kv.2 with
        | false => rfl
        | true => exact absurd h hv
      rw [List.filter_cons_of_neg (by simp [hv2]), List.filterMap_cons,
        filtroRanking_none_of_invalid hv2, ih]

/-! ### Claim C2 — factual fusion uses exactly the top source -/

/-- C2: for a factual category (`"qual"`/`"quem"`/`"quanto"`) and at least
two valid results, the fused text is built from the extracted sentences of
the single top-ranked source only, and the contributing-source label is
exactly that top source's name (so never a `"+"`-joined pair) whenever a
truthy answer is produced. -/
theorem c2_fusao_factual (respostas : List (String × Option String)) (pergunta tipo : String)
    (htipo : tipo = "qual" ∨ tipo = "quem" ∨ tipo = "quanto")
    (hval : 2 ≤ (respostasValidas respostas).length) :
    ∃ melhor resto, ranquearRespostas respostas pergunta = melhor :: resto ∧
      combinarRespostas respostas pergunta tipo 6 =
        posProcessar (extrairSentencasRelevantes melhor.2.1 pergunta 6) ∧
      (combinarComFontePrincipal respostas pergunta tipo).2 =
        (if pyTruthyStr (combinarRespostas respostas pergunta tipo 6) then some melhor.1
         else none) := by
  obtain ⟨m, r, hmr0⟩ := respostasValidas_two_le_ranking pergunta hval
  have hmr : ranquearRespostas respostas pergunta = m :: r := by
    rw [← ranquear_respostasValidas_eq]
    exact hmr0
  have hne : ¬respostasValidas respostas = [] := by
    intro h
    rw [h] at hval
    simp at hval
  have hne1 : ¬(respostasValidas respostas).length = 1 := by omega
  have hnc : ¬(tipo = "como" ∨ tipo = "porque") := by
    rcases htipo with h | h | h <;> subst h <;> decide
  have hcomb : combinarRespostas respostas pergunta tipo 6 =
      posProcessar (extrairSentencasRelevantes m.2.1 pergunta 6) := by
    unfold combinarRespostas combinarRespostasAux
    dsimp only
    rw [if_neg hne, if_neg hne1, if_pos htipo, hmr0]
  refine ⟨m, r, hmr, hcomb, ?_⟩
  unfold combinarComFontePrincipal
  dsimp only
  rw [hmr]
  dsimp only
  by_cases hb : pyTruthyStr (combinarRespostas respostas pergunta tipo 6) = true
  · rw [if_pos hb, if_neg (fun hc => hnc hc.2), if_pos hb]
  · rw [if_neg hb, if_neg hb]

/-- Witness for C2 at a concrete two-valid-source map and the category
`"qual"`. -/
theorem c2_fusao_factual_witness :
    ∃ melhor resto,
      ranquearRespostas
        [("s1", some "Uma resposta bastante longa."), ("s2", some "Outra resposta bem longa.")]
        "pergunta qualquer" = melhor :: resto ∧
      combinarRespostas
        [("s1", some "Uma resposta bastante longa."), ("s2", some "Outra resposta bem longa.")]
        "pergunta qualquer" "qual" 6 =
        posProcessar (extrairSentencasRelevantes melhor.2.1 "pergunta qualquer" 6) ∧
      (combinarComFontePrincipal
        [("s1", some "Uma resposta bastante longa."), ("s2", some "Outra resposta bem longa.")]
        "pergunta qualquer" "qual").2 =
        (if pyTruthyStr (combinarRespostas
            [("s1", some "Uma resposta bastante longa."), ("s2", some "Outra resposta bem longa.")]
            "pergunta qualquer" "qual" 6) then some melhor.1
         else none) :=
  c2_fusao_factual _ _ _ (Or.inl rfl) (by decide)

/-! ### Claim C3 — contributing-source label for explanatory/general fusion -/

/-- C3 (amended): with at least two valid results and a truthy fused
answer, the contributing-source label is a `"+"`-join only for the
explanatory categories (`"como"`/`"porque"`), and that join covers the
first *at most three* ranking entries whose relevance exceeds 0.1, in
descending relevance order; for every other (general) category the label is
the single top-ranked source name, never a join. -/
theorem c3_rotulo_fontes_amended (respostas : List (String × Option String))
    (pergunta tipo : String) (hval : 2 ≤ (respostasValidas respostas).length) :
    ((tipo = "como" ∨ tipo = "porque") →
      (combinarComFontePrincipal respostas pergunta tipo).2 =
        (if pyTruthyStr (combinarRespostas respostas pergunta tipo 6) then
          some (String.intercalate "+"
            ((((ranquearRespostas respostas pergunta).filter
                fun e => decide ((0.1 : ℝ) < e.2.2)).map fun e => e.1).take 3))
         else none)) ∧
    ((tipo ≠ "como" ∧ tipo ≠ "porque") →
      ∃ melhor resto, ranquearRespostas respostas pergunta = melhor :: resto ∧
        (combinarComFontePrincipal respostas pergunta tipo).2 =
          (if pyTruthyStr (combinarRespostas respostas pergunta tipo 6) then some melhor.1
           else none)) := by
  obtain ⟨m, r, hmr0⟩ := respostasValidas_two_le_ranking pergunta hval
  have hmr : ranquearRespostas respostas pergunta = m :: r := by
    rw [← ranquear_respostasValidas_eq]
    exact hmr0
  have hlen : (ranquearRespostas respostas pergunta).length =
      (respostasValidas respostas).length := by
    rw [← ranquear_respostasValidas_eq]
    exact ranquear_length_validas respostas pergunta
  have hrlen : 0 < r.length := by
    rw [hmr] at hlen
    simp only [List.length_cons] at hlen
    omega
  constructor
  · intro htipo
    unfold combinarComFontePrincipal
    dsimp only
    rw [hmr]
    dsimp only
    by_cases hb : pyTruthyStr (combinarRespostas respostas pergunta tipo 6) = true
    · rw [if_pos hb, if_pos ⟨hrlen, htipo⟩, if_pos hb]
    · rw [if_neg hb, if_neg hb]
  · intro htipo
    refine ⟨m, r, hmr, ?_⟩
    unfold combinarComFontePrincipal
    dsimp only
    rw [hmr]
    dsimp only
    by_cases hb : pyTruthyStr (combinarRespostas respostas pergunta tipo 6) = true
    · rw [if_pos hb, if_neg (fun hc => hc.2.elim htipo.1 htipo.2), if_pos hb]
    · rw [if_neg hb, if_neg hb]

/-- Witness for the amended C3, applying it at a two-valid-source map under
both an explanatory category (`"como"`) and a general one (`"geral"`). -/
theorem c3_rotulo_fontes_amended_witness :
    ((combinarComFontePrincipal
        [("s1", some "Uma resposta bastante longa."), ("s2", some "Outra resposta bem longa.")]
        "pergunta qualquer" "como").2 =
      (if pyTruthyStr (combinarRespostas
          [("s1", some "Uma resposta bastante longa."), ("s2", some "Outra resposta bem longa.")]
          "pergunta qualquer" "como" 6) then
        some (String.intercalate "+"
          ((((ranquearRespostas
              [("s1", some "Uma resposta bastante longa."), ("s2", some "Outra resposta bem longa.")]
              "pergunta qualquer").filter
              fun e => decide ((0.1 : ℝ) < e.2.2)).map fun e => e.1).take 3))
       else none)) ∧
    (∃ melhor resto,
      ranquearRespostas
        [("s1", some "Uma resposta bastante longa."), ("s2", some "Outra resposta bem longa.")]
        "pergunta qualquer" = melhor :: resto ∧
      (combinarComFontePrincipal
        [("s1", some "Uma resposta bastante longa."), ("s2", some "Outra resposta bem longa.")]
        "pergunta qualquer" "geral").2 =
        (if pyTruthyStr (combinarRespostas
            [("s1", some "Uma resposta bastante longa."), ("s2", some "Outra resposta bem longa.")]
            "pergunta qualquer" "geral" 6) then some melhor.1
         else none)) :=
  ⟨(c3_rotulo_fontes_amended _ "pergunta qualquer" "como" (by decide)).1 (Or.inl rfl),
   (c3_rotulo_fontes_amended _ "pergunta qualquer" "geral" (by decide)).2 (by decide)⟩

/-! ### Scheduler lemmas -/

/-- The dict accumulated by the collection loop over a list of events. -/
def coletaParcial (acc : List (String × Option String)) (eventos : List Evento) :
    List (String × Option String) :=
  eventos.foldl (fun m e => dictInsert m e.fonte e.resultado) acc

/-- No break happens while collecting these events from this accumulator:
every event completes before the overall timeout and never brings the count
of substantial results to 2. -/
def semParadaAntes (T : ℚ) : List Evento → List (String × Option String) → Bool
  | [], _ => true
  | e :: resto, acc =>
    decide (e.tempo < T) &&
    decide (contaBoas (dictInsert acc e.fonte e.resultado) < 2) &&
    semParadaAntes T resto (dictInsert acc e.fonte e.resultado)

theorem coletar_early (T : ℚ) (pre : List Evento) :
    ∀ (acc : List (String × Option String)) (e : Evento) (post : List Evento) (pend : Bool),
    semParadaAntes T pre acc = true → e.tempo < T →
    2 ≤ contaBoas (dictInsert (coletaParcial acc pre) e.fonte e.resultado) →
    coletar T (pre ++ e :: post) acc pend =
      .ok (dictInsert (coletaParcial acc pre) e.fonte e.resultado) := by
  induction pre with
  | nil =>
    intro acc e post pend _ h2 h3
    have hred : coletaParcial acc [] = acc := rfl
    rw [hred] at h3
    show coletar T (e :: post) acc pend = _
    unfold coletar
    rw [if_neg (not_le.2 h2)]
    dsimp only
    rw [if_pos h3, hred]
  | cons f pre ih =>
    intro acc e post pend h1 h2 h3
    unfold semParadaAntes at h1
    simp only [Bool.and_eq_true, decide_eq_true_eq] at h1
    show coletar T (f :: (pre ++ e :: post)) acc pend = _
    unfold coletar
    rw [if_neg (not_le.2 h1.1.1)]
    dsimp only
    rw [if_neg (not_le.2 h1.1.2)]
    have hpar : coletaParcial acc (f :: pre) =
        coletaParcial (dictInsert acc f.fonte f.resultado) pre := rfl
    rw [hpar] at h3
    have := ih (dictInsert acc f.fonte f.resultado) e post pend
      (by
        have h12 := h1.2
        simp only [Bool.and_eq_true, decide_eq_true_eq] at h12 ⊢
        exact h12) h2 h3
    rw [this, hpar]

theorem mem_dictInsert {m : List (String × Option String)} {k g : String}
    {r v : Option String} (h : (g, v) ∈ dictInsert m k r) :
    (∃ w, (g, w) ∈ m) ∨ g = k := by
  unfold dictInsert at h
  split at h
  · obtain ⟨kv, hkv, hpair⟩ := List.mem_map.1 h
    by_cases hk : kv.1 = k
    · rw [if_pos hk] at hpair
      right
      have hfst := congrArg Prod.fst hpair
      simpa using hfst.symm
    · rw [if_neg hk] at hpair
      left
      exact ⟨v, hpair ▸ hkv⟩
  · rcases List.mem_append.1 h with hm | hm
    · exact Or.inl ⟨v, hm⟩
    · right
      have := List.mem_singleton.1 hm
      exact congrArg Prod.fst this
  
theorem mem_coletaParcial {eventos : List Evento} :
    ∀ {acc : List (String × Option String)} {g : String} {v : Option String},
    (g, v) ∈ coletaParcial acc eventos →
    (∃ w, (g, w) ∈ acc) ∨ g ∈ eventos.map Evento.fonte := by
  induction eventos with
  | nil => intro acc g v h; exact Or.inl ⟨v, h⟩
  | cons e resto ih =>
    intro acc g v h
    have hstep : coletaParcial acc (e :: resto) =
        coletaParcial (dictInsert acc e.fonte e.resultado) resto := rfl
    rw [hstep] at h
    rcases ih h with ⟨w, hw⟩ | hm
    · rcases mem_dictInsert hw with hacc | hk
      · exact Or.inl hacc
      · exact Or.inr (by rw [hk]; exact List.mem_cons_self _ _)
    · exact Or.inr (List.mem_cons_of_mem _ hm)

/-! ### Claim C7 — early stopping -/

/-- C7: as soon as an event raises the count of substantial results
(non-`None`, longer than 100 characters) to 2, the collection loop returns
immediately with exactly what was collected so far: the result does not
depend on the remaining events or on whether futures were still pending,
and every key of the returned map comes from a processed event — abandoned
sources are absent, and there is no retry. -/
theorem c7_parada_antecipada (fp : Option (List String)) (mf : ℕ) (T : ℚ)
    (pre : List Evento) (e : Evento) (post post2 : List Evento) (pend pend2 : Bool)
    (h1 : semParadaAntes T pre [] = true) (h2 : e.tempo < T)
    (h3 : 2 ≤ contaBoas (dictInsert (coletaParcial [] pre) e.fonte e.resultado)) :
    buscarInteligente fp mf T (pre ++ e :: post) pend =
      .ok (dictInsert (coletaParcial [] pre) e.fonte e.resultado) ∧
    buscarInteligente fp mf T (pre ++ e :: post) pend =
      buscarInteligente fp mf T (pre ++ e :: post2) pend2 ∧
    (∀ g v, (g, v) ∈ dictInsert (coletaParcial [] pre) e.fonte e.resultado →
      g ∈ (pre ++ [e]).map Evento.fonte) := by
  have ha := coletar_early T pre [] e post pend h1 h2 h3
  have hb := coletar_early T pre [] e post2 pend2 h1 h2 h3
  refine ⟨ha, by rw [show buscarInteligente fp mf T (pre ++ e :: post) pend =
      coletar T (pre ++ e :: post) [] pend from rfl, ha,
    show buscarInteligente fp mf T (pre ++ e :: post2) pend2 =
      coletar T (pre ++ e :: post2) [] pend2 from rfl, hb], ?_⟩
  intro g v hg
  rcases mem_dictInsert hg with ⟨w, hw⟩ | hk
  · rcases mem_coletaParcial hw with ⟨w2, hw2⟩ | hm
    · exact absurd hw2 (List.not_mem_nil _)
    · rw [List.map_append]
      exact List.mem_append.2 (Or.inl hm)
  · rw [hk, List.map_append]
    exact List.mem_append.2 (Or.inr (by simp))

/-- A 104-character answer, substantial in the sense of the early-stopping
test (`len(r) > 100`). -/
def respostaLonga : String :=
  "Uma resposta consideravelmente longa com mais de cem caracteres para acionar a parada antecipada do laco."

/-- Witness for C7: two fast substantial sources trigger the early stop and
the map omits the still-pending third source. -/
theorem c7_parada_antecipada_witness :
    buscarInteligente (some ["wolfram", "google", "wikipedia"]) 4 20
      [⟨"wolfram", 1, some respostaLonga⟩, ⟨"google", 2, some respostaLonga⟩,
       ⟨"wikipedia", 3, some respostaLonga⟩] true =
      .ok (dictInsert (coletaParcial [] [⟨"wolfram", 1, some respostaLonga⟩])
        "google" (some respostaLonga)) ∧
    buscarInteligente (some ["wolfram", "google", "wikipedia"]) 4 20
      [⟨"wolfram", 1, some respostaLonga⟩, ⟨"google", 2, some respostaLonga⟩,
       ⟨"wikipedia", 3, some respostaLonga⟩] true =
      buscarInteligente (some ["wolfram", "google", "wikipedia"]) 4 20
        [⟨"wolfram", 1, some respostaLonga⟩, ⟨"google", 2, some respostaLonga⟩] false ∧
    (∀ g v, (g, v) ∈ dictInsert (coletaParcial [] [⟨"wolfram", 1, some respostaLonga⟩])
        "google" (some respostaLonga) →
      g ∈ ([⟨"wolfram", 1, some respostaLonga⟩, (⟨"google", 2, some respostaLonga⟩ : Evento)]).map
        Evento.fonte) := by
  have h := c7_parada_antecipada (some ["wolfram", "google", "wikipedia"]) 4 20
    [⟨"wolfram", 1, some respostaLonga⟩] ⟨"google", 2, some respostaLonga⟩
    [⟨"wikipedia", 3, some respostaLonga⟩] [] true false
    (by decide) (by decide) (by decide)
  exact ⟨h.1, h.2.1, h.2.2⟩

theorem dictInsert_fresh {m : List (String × Option String)} {k : String}
    {v : Option String} (h : ∀ kv ∈ m, kv.1 ≠ k) :
    dictInsert m k v = m ++ [(k, v)] := by
  unfold dictInsert
  rw [if_neg]
  intro hany
  obtain ⟨kv, hkv, hk⟩ := List.any_eq_true.1 hany
  exact h kv hkv (by simpa using hk)

theorem contaBoas_append_none (m : List (String × Option String)) (k : String) :
    contaBoas (m ++ [(k, none)]) = contaBoas m := by
  unfold contaBoas
  rw [List.countP_append]
  simp

/-- When every completed future carries `None` before the deadline and
sources are distinct, the loop never stops early and the final dict maps
each event's source to `None`, appended in completion order. -/
theorem coletar_all_none (T : ℚ) (eventos : List Evento) :
    ∀ acc : List (String × Option String),
    (∀ e ∈ eventos, e.resultado = none) → (∀ e ∈ eventos, e.tempo < T) →
    (eventos.map Evento.fonte).Nodup →
    (∀ e ∈ eventos, ∀ kv ∈ acc, kv.1 ≠ e.fonte) →
    contaBoas acc < 2 →
    coletar T eventos acc false = .ok (acc ++ eventos.map fun e => (e.fonte, none)) := by
  induction eventos with
  | nil =>
    intro acc _ _ _ _ _
    show Except.ok acc = _
    rw [List.map_nil, List.append_nil]
  | cons e resto ih =>
    intro acc hres ht hnd hfresh hcb
    unfold coletar
    rw [if_neg (not_le.2 (ht e (List.mem_cons_self _ _)))]
    dsimp only
    have hre : e.resultado = none := hres e (List.mem_cons_self _ _)
    have hins : dictInsert acc e.fonte e.resultado = acc ++ [(e.fonte, none)] := by
      rw [hre]
      exact dictInsert_fresh (fun kv hkv => hfresh e (List.mem_cons_self _ _) kv hkv)
    have hcb2 : contaBoas (dictInsert acc e.fonte e.resultado) < 2 := by
      rw [hins, contaBoas_append_none]
      exact hcb
    rw [if_neg (not_le.2 hcb2), hins]
    have hnd2 : (resto.map Evento.fonte).Nodup := by
      rw [List.map_cons] at hnd
      exact hnd.of_cons
    have hfonte : ∀ f ∈ resto, e.fonte ≠ f.fonte := by
      intro f hf heq
      rw [List.map_cons] at hnd
      have := (List.nodup_cons.1 hnd).1
      exact this (heq ▸ List.mem_map.2 ⟨f, hf, rfl⟩)
    have := ih (acc ++ [(e.fonte, none)])
      (fun f hf => hres f (List.mem_cons_of_mem _ hf))
      (fun f hf => ht f (List.mem_cons_of_mem _ hf))
      hnd2
      (by
        intro f hf kv hkv
        rcases List.mem_append.1 hkv with hkv | hkv
        · exact hfresh f (List.mem_cons_of_mem _ hf) kv hkv
        · have : kv = (e.fonte, none) := List.mem_singleton.1 hkv
          rw [this]
          exact hfonte f hf)
      (by rw [contaBoas_append_none]; exact hcb)
    rw [this, List.map_cons, List.append_assoc]
    rfl

/-! ### Claim C1 — coverage of the returned map -/

/-- C1 (amended): when every submitted future completes with `None` before
the overall timeout (the behaviour of adapters whose internal request
timeouts fire), the returned map holds exactly one `None` entry per
selected source, so every selected source is covered; but when futures are
still pending at the deadline, `as_completed` raises `TimeoutError` outside
the loop's `try`, so the call raises instead of returning a map — and (see
the counterexample) early stopping can leave selected sources out of the
map entirely. -/
theorem c1_fanout_amended (fp : Option (List String)) (mf : ℕ) (T : ℚ)
    (eventos : List Evento)
    (hres : ∀ e ∈ eventos, e.resultado = none)
    (ht : ∀ e ∈ eventos, e.tempo < T)
    (hnd : (eventos.map Evento.fonte).Nodup)
    (hcov : ∀ f ∈ fontesABuscar fp mf, f ∈ eventos.map Evento.fonte) :
    buscarInteligente fp mf T eventos false =
      .ok (eventos.map fun e => (e.fonte, none)) ∧
    (∀ f ∈ fontesABuscar fp mf, (f, (none : Option String)) ∈
      eventos.map fun e => (e.fonte, none)) ∧
    buscarInteligente fp mf T [] true = .error () := by
  refine ⟨?_, ?_, rfl⟩
  · have := coletar_all_none T eventos []
      hres ht hnd (by intro e _ kv hkv; exact absurd hkv (List.not_mem_nil _)) (by decide)
    rw [show buscarInteligente fp mf T eventos false = coletar T eventos [] false from rfl, this]
    rfl
  · intro f hf
    obtain ⟨e, he, hef⟩ := List.mem_map.1 (hcov f hf)
    exact List.mem_map.2 ⟨e, he, by rw [hef]⟩

/-- Witness for the amended C1: two selected sources, both completing with
`None` inside the window; the map covers both, and the all-pending run
raises. -/
theorem c1_fanout_amended_witness :
    buscarInteligente (some ["wolfram", "google"]) 4 20
      [⟨"wolfram", 3, none⟩, ⟨"google", 5, none⟩] false =
      .ok ([⟨"wolfram", 3, none⟩, (⟨"google", 5, none⟩ : Evento)].map fun e => (e.fonte, none)) ∧
    (∀ f ∈ fontesABuscar (some ["wolfram", "google"]) 4, (f, (none : Option String)) ∈
      [⟨"wolfram", 3, none⟩, (⟨"google", 5, none⟩ : Evento)].map fun e => (e.fonte, none)) ∧
    buscarInteligente (some ["wolfram", "google"]) 4 20 [] true = .error () :=
  c1_fanout_amended (some ["wolfram", "google"]) 4 20
    [⟨"wolfram", 3, none⟩, ⟨"google", 5, none⟩]
    (by decide) (by decide) (by decide) (by decide)

/-- Counterexample to C1 as stated: with three selected sources and two
fast substantial answers, early stopping returns a map with no entry at all
for the still-pending source "wikipedia" (rather than an entry `None`), and
when every future hangs past the overall timeout the call raises instead of
returning a map of `None`s. -/
theorem c1_fanout_cex :
    buscarInteligente (some ["wolfram", "google", "wikipedia"]) 4 20
      [⟨"wolfram", 1, some respostaLonga⟩, ⟨"google", 2, some respostaLonga⟩] true =
      .ok [("wolfram", some respostaLonga), ("google", some respostaLonga)] ∧
    "wikipedia" ∈ fontesABuscar (some ["wolfram", "google", "wikipedia"]) 4 ∧
    "wikipedia" ∉
      ([("wolfram", some respostaLonga), ("google", some respostaLonga)].map Prod.fst) ∧
    buscarInteligente (some ["wolfram", "google", "wikipedia"]) 4 20 [] true = .error () := by
  refine ⟨by rfl, by decide, by decide, rfl⟩

/-! ### Claim C10 — sentence selection is an order-preserving subsequence -/

/-- C10 (amended): the relevant-sentence extraction always returns a
subsequence of the text's extracted sentences in their original order; its
length is bounded by `maxSentencas` whenever the extracted sentences are
pairwise distinct.  (With duplicated sentences the final membership filter
can exceed the cap — see the counterexample.) -/
theorem c10_extrair_subsequencia_amended (resposta pergunta : String) (maxSentencas : ℕ) :
    (extrairSentencasRelevantes resposta pergunta maxSentencas).Sublist
      (extrairSentencas resposta none) ∧
    ((extrairSentencas resposta none).Nodup →
      (extrairSentencasRelevantes resposta pergunta maxSentencas).length ≤ maxSentencas) := by
  unfold extrairSentencasRelevantes
  dsimp only
  split
  · rename_i hnil
    rw [hnil]
    exact ⟨List.Sublist.refl _, fun _ => by simp⟩
  · split
    · rename_i hle
      exact ⟨List.Sublist.refl _, fun _ => hle⟩
    · constructor
      · exact List.filter_sublist _
      · intro hnd
        set sentencas := extrairSentencas resposta none with hsen
        set top := ((List.insertionSort relPar
          (sentencas.map fun s => (s, calcularRelevancia s pergunta))).take
            maxSentencas).map (fun par => par.1) with htop
        have hsub : ∀ s ∈ sentencas.filter (fun s => top.contains s), s ∈ top := by
          intro s hs
          have := List.of_mem_filter hs
          simpa using this
        have hndf : (sentencas.filter fun s => top.contains s).Nodup := hnd.filter _
        have hsubset : (sentencas.filter fun s => top.contains s).toFinset ⊆ top.toFinset := by
          intro x hx
          rw [List.mem_toFinset] at hx ⊢
          exact hsub x hx
        calc (sentencas.filter fun s => top.contains s).length
            = (sentencas.filter fun s => top.contains s).toFinset.card :=
              (List.toFinset_card_of_nodup hndf).symm
          _ ≤ top.toFinset.card := Finset.card_le_card hsubset
          _ ≤ top.length := List.toFinset_card_le _
          _ ≤ maxSentencas := by
              rw [htop, List.length_map, List.length_take]
              omega

/-- Witness for the amended C10 at a two-sentence text with distinct
sentences and cap 1. -/
theorem c10_extrair_subsequencia_amended_witness :
    (extrairSentencasRelevantes "Primeira frase completa. Segunda frase diferente."
      "pergunta" 1).Sublist
      (extrairSentencas "Primeira frase completa. Segunda frase diferente." none) ∧
    (extrairSentencasRelevantes "Primeira frase completa. Segunda frase diferente."
      "pergunta" 1).length ≤ 1 :=
  have h := c10_extrair_subsequencia_amended
    "Primeira frase completa. Segunda frase diferente." "pergunta" 1
  ⟨h.1, h.2 (by decide)⟩

/-! ### Concrete evaluation of the scorer on rational-valued inputs -/

/-- When every vocabulary term occurs in both documents, the similarity is
the all-1-idf rational value. -/
theorem cosSim_sameset_eval {d1 d2 : List String}
    (h : ∀ t ∈ vocabulario d1 d2, t ∈ d1 ∧ t ∈ d2) :
    cosSim d1 d2 =
      (if (normaQuadNat d1 d1 d2 : ℝ) = 0 ∨ (normaQuadNat d2 d1 d2 : ℝ) = 0 then 0
       else (produtoInternoNat d1 d2 : ℝ) /
         (Real.sqrt (normaQuadNat d1 d1 d2) * Real.sqrt (normaQuadNat d2 d1 d2))) := by
  unfold cosSim
  rw [produtoInterno_eq_nat h, normaQuad_eq_nat h, normaQuad_eq_nat h]

/-- The sentences of the C10 counterexample text: a duplicated low-relevance
sentence around a high-relevance one. -/
def fraseTempo : String := "The weather looks fine."

/-- The high-relevance middle sentence of the C10 counterexample. -/
def fraseParis : String := "Paris capital."

/-- The C10 counterexample text: three sentences, the first and third equal. -/
def textoC10 : String := "The weather looks fine. Paris capital. The weather looks fine."

/-- The C10 counterexample question. -/
def perguntaC10 : String := "paris capital"

/-- Counterexample to C10 as stated: with `max_sentencas = 2` the function
returns all three sentences.  The two occurrences of the duplicated
sentence score 0, the middle sentence scores 1, so the top-2 value set is
`{Paris capital., The weather looks fine.}` and the final membership filter
re-admits every occurrence — three sentences, exceeding the cap. -/
theorem c10_extrair_cex :
    extrairSentencasRelevantes textoC10 perguntaC10 2 =
      [fraseTempo, fraseParis, fraseTempo] ∧
    2 < (extrairSentencasRelevantes textoC10 perguntaC10 2).length := by
  have hA : calcularRelevancia fraseTempo perguntaC10 = 0 :=
    calcularRelevancia_zero (Or.inr (Or.inr (by decide)))
  have hB : calcularRelevancia fraseParis perguntaC10 = 1 :=
    calcularRelevancia_tokens_iguais (by decide) (by decide)
  have hsent : extrairSentencas textoC10 none = [fraseTempo, fraseParis, fraseTempo] := by decide
  have hsort : List.insertionSort relPar
      [(fraseTempo, (0 : ℝ)), (fraseParis, 1), (fraseTempo, 0)] =
      [(fraseParis, 1), (fraseTempo, 0), (fraseTempo, 0)] := by
    simp only [List.insertionSort, List.orderedInsert]
    norm_num [relPar]
  have hmain : extrairSentencasRelevantes textoC10 perguntaC10 2 =
      [fraseTempo, fraseParis, fraseTempo] := by
    unfold extrairSentencasRelevantes
    rw [hsent]
    rw [if_neg (by decide), if_neg (by decide)]
    dsimp only
    rw [show [fraseTempo, fraseParis, fraseTempo].map
        (fun s => (s, calcularRelevancia s perguntaC10)) =
        [(fraseTempo, (0 : ℝ)), (fraseParis, 1), (fraseTempo, 0)] by
      simp only [List.map_cons, List.map_nil]
      rw [hA, hB]]
    rw [hsort]
    decide
  exact ⟨hmain, by rw [hmain]; decide⟩

/-! ### Concrete inputs for the C3 counterexample -/

/-- The C3 counterexample question (tokens `paris capital france`). -/
def perguntaGeo : String := "paris capital france"

/-- First source text: same token list as the question, so relevance 1. -/
def fraseGeo1 : String := "Paris capital france."

/-- Second source text: same token set with `paris` repeated five times;
relevance is exactly `7/9` (tf vectors `(1,1,1)` and `(5,1,1)`, all idf 1). -/
def fraseGeo5 : String := "Paris paris paris paris paris capital france."

/-- The C3 counterexample map: two valid sources. -/
def respostasGeo : List (String × Option String) :=
  [("s1", some fraseGeo1), ("s2", some fraseGeo5)]

theorem sqrt_tres_sqrt_27 : Real.sqrt 3 * Real.sqrt 27 = 9 := by
  rw [← Real.sqrt_mul (by norm_num : (0 : ℝ) ≤ 3) 27]
  rw [show (3 : ℝ) * 27 = 9 ^ 2 by norm_num]
  exact Real.sqrt_sq (by norm_num)

theorem sqrt_27_sqrt_tres : Real.sqrt 27 * Real.sqrt 3 = 9 := by
  rw [mul_comm]
  exact sqrt_tres_sqrt_27

theorem score_fraseGeo1 : calcularRelevancia fraseGeo1 perguntaGeo = 1 :=
  calcularRelevancia_tokens_iguais (by decide) (by decide)

theorem score_fraseGeo5 : calcularRelevancia fraseGeo5 perguntaGeo = 7 / 9 := by
  unfold calcularRelevancia similaridadeTfidf
  rw [if_neg (by decide)]
  rw [if_neg (by decide)]
  simp only [Option.getD_some]
  rw [cosSim_sameset_eval (by decide)]
  rw [show normaQuadNat (tokenize perguntaGeo) (tokenize perguntaGeo) (tokenize fraseGeo5) = 3
      from by decide,
    show normaQuadNat (tokenize fraseGeo5) (tokenize perguntaGeo) (tokenize fraseGeo5) = 27
      from by decide,
    show produtoInternoNat (tokenize perguntaGeo) (tokenize fraseGeo5) = 7 from by decide]
  rw [if_neg (by push_cast; norm_num)]
  push_cast
  rw [sqrt_tres_sqrt_27]

theorem sim_fraseGeo5_fraseGeo1 : similaridadeTfidf fraseGeo5 fraseGeo1 = some (7 / 9 : ℝ) := by
  unfold similaridadeTfidf
  rw [if_neg (by decide)]
  rw [cosSim_sameset_eval (by decide)]
  rw [show normaQuadNat (tokenize fraseGeo5) (tokenize fraseGeo5) (tokenize fraseGeo1) = 27
      from by decide,
    show normaQuadNat (tokenize fraseGeo1) (tokenize fraseGeo5) (tokenize fraseGeo1) = 3
      from by decide,
    show produtoInternoNat (tokenize fraseGeo5) (tokenize fraseGeo1) = 7 from by decide]
  rw [if_neg (by push_cast; norm_num)]
  congr 1
  push_cast
  rw [sqrt_27_sqrt_tres]

theorem rank_respostasGeo :
    ranquearRespostas respostasGeo perguntaGeo =
      [("s1", fraseGeo1, (1 : ℝ)), ("s2", fraseGeo5, 7 / 9)] := by
  have hf1 : filtroRanking perguntaGeo ("s1", some fraseGeo1) =
      some ("s1", fraseGeo1, calcularRelevancia fraseGeo1 perguntaGeo) := by
    show (if respostaValida (some fraseGeo1) = true
        then some ("s1", fraseGeo1, calcularRelevancia fraseGeo1 perguntaGeo) else none) = _
    rw [if_pos (by decide)]
  have hf2 : filtroRanking perguntaGeo ("s2", some fraseGeo5) =
      some ("s2", fraseGeo5, calcularRelevancia fraseGeo5 perguntaGeo) := by
    show (if respostaValida (some fraseGeo5) = true
        then some ("s2", fraseGeo5, calcularRelevancia fraseGeo5 perguntaGeo) else none) = _
    rw [if_pos (by decide)]
  unfold ranquearRespostas
  rw [show respostasGeo = [("s1", some fraseGeo1), ("s2", some fraseGeo5)] from rfl]
  rw [List.filterMap_cons, hf1, List.filterMap_cons, hf2, List.filterMap_nil]
  rw [score_fraseGeo1, score_fraseGeo5]
  simp only [List.insertionSort, List.orderedInsert]
  norm_num [relScore]

theorem extrair_fraseGeo1 : extrairSentencasRelevantes fraseGeo1 perguntaGeo 2 = [fraseGeo1] := by
  unfold extrairSentencasRelevantes
  rw [show extrairSentencas fraseGeo1 none = [fraseGeo1] from by decide]
  rw [if_neg (by decide), if_pos (by decide)]

theorem extrair_fraseGeo5 : extrairSentencasRelevantes fraseGeo5 perguntaGeo 2 = [fraseGeo5] := by
  unfold extrairSentencasRelevantes
  rw [show extrairSentencas fraseGeo5 none = [fraseGeo5] from by decide]
  rw [if_neg (by decide), if_pos (by decide)]

theorem dedup_fraseGeo : removerDuplicatas [fraseGeo1, fraseGeo5] (0.75 : ℝ) = [fraseGeo1] := by
  have step1 : removerDuplicatasAux (0.75 : ℝ) [fraseGeo1, fraseGeo5] [] =
      removerDuplicatasAux 0.75 [fraseGeo5] [fraseGeo1] := by
    show (if ∃ u ∈ ([] : List String), ∃ σ, similaridadeTfidf fraseGeo1 u = some σ ∧ (0.75 : ℝ) ≤ σ
        then removerDuplicatasAux 0.75 [fraseGeo5] []
        else removerDuplicatasAux 0.75 [fraseGeo5] ([] ++ [fraseGeo1])) =
      removerDuplicatasAux 0.75 [fraseGeo5] [fraseGeo1]
    rw [if_neg (by simp)]
    rfl
  have step2 : removerDuplicatasAux (0.75 : ℝ) [fraseGeo5] [fraseGeo1] =
      removerDuplicatasAux 0.75 [] [fraseGeo1] := by
    show (if ∃ u ∈ [fraseGeo1], ∃ σ, similaridadeTfidf fraseGeo5 u = some σ ∧ (0.75 : ℝ) ≤ σ
        then removerDuplicatasAux 0.75 [] [fraseGeo1]
        else removerDuplicatasAux 0.75 [] ([fraseGeo1] ++ [fraseGeo5])) =
      removerDuplicatasAux 0.75 [] [fraseGeo1]
    rw [if_pos ⟨fraseGeo1, List.mem_singleton.2 rfl, 7 / 9, sim_fraseGeo5_fraseGeo1, by norm_num⟩]
  show removerDuplicatasAux (0.75 : ℝ) [fraseGeo1, fraseGeo5] [] = [fraseGeo1]
  rw [step1, step2]
  rfl

theorem combinar_respostasGeo :
    combinarRespostas respostasGeo perguntaGeo "geral" 6 = some fraseGeo1 := by
  have harg : List.take 6 (removerDuplicatas
      (List.flatten (List.map
        (fun (e : String × String × ℝ) => extrairSentencasRelevantes e.2.1 perguntaGeo 2)
        (List.filter (fun (e : String × String × ℝ) => decide ((0.05 : ℝ) < e.2.2))
          (List.take 2 [("s1", fraseGeo1, (1 : ℝ)), ("s2", fraseGeo5, 7 / 9)]))))
      (0.75 : ℝ)) = [fraseGeo1] := by
    rw [show ([("s1", fraseGeo1, (1 : ℝ)), ("s2", fraseGeo5, 7 / 9)]).take 2 =
      [("s1", fraseGeo1, (1 : ℝ)), ("s2", fraseGeo5, 7 / 9)] from rfl]
    rw [List.filter_cons, List.filter_cons, List.filter_nil]
    rw [if_pos (show decide ((0.05 : ℝ) <
        (("s1", fraseGeo1, (1 : ℝ)) : String × String × ℝ).2.2) = true by
      rw [decide_eq_true_eq]
      show (0.05 : ℝ) < 1
      norm_num)]
    rw [if_pos (show decide ((0.05 : ℝ) <
        (("s2", fraseGeo5, (7 : ℝ) / 9) : String × String × ℝ).2.2) = true by
      rw [decide_eq_true_eq]
      show (0.05 : ℝ) < 7 / 9
      norm_num)]
    rw [List.map_cons, List.map_cons, List.map_nil]
    dsimp only
    rw [extrair_fraseGeo1, extrair_fraseGeo5]
    rw [show ([[fraseGeo1], [fraseGeo5]] : List (List String)).flatten = [fraseGeo1, fraseGeo5]
      from rfl]
    rw [dedup_fraseGeo]
    rfl
  unfold combinarRespostas combinarRespostasAux
  dsimp only
  rw [show respostasValidas respostasGeo = respostasGeo from by decide]
  rw [if_neg (by decide), if_neg (by decide), if_neg (by decide), if_neg (by decide)]
  rw [rank_respostasGeo, harg]
  rw [show posProcessar [fraseGeo1] = some fraseGeo1 from by decide]

theorem combinarComFonte_respostasGeo :
    combinarComFontePrincipal respostasGeo perguntaGeo "geral" =
      (some fraseGeo1, some "s1") := by
  unfold combinarComFontePrincipal
  dsimp only
  rw [combinar_respostasGeo]
  rw [if_pos (show pyTruthyStr (some fraseGeo1) = true from by decide)]
  rw [rank_respostasGeo]
  dsimp only
  rw [if_neg (by
    intro hc
    rcases hc.2 with h | h <;> exact absurd h (by decide))]

/-! ### Claim C3 — counterexample -/

/-- Counterexample to C3 as stated: a general-category fusion with two
valid sources whose relevances (1 and 7/9) both exceed the general
strategy's floor 0.05 produces the label `"s1"` — the single top source —
not the "+"-join `"s1+s2"` of all sources above the floor that the claim
requires for general categories. -/
theorem c3_rotulo_fontes_cex :
    ranquearRespostas respostasGeo perguntaGeo =
      [("s1", fraseGeo1, (1 : ℝ)), ("s2", fraseGeo5, 7 / 9)] ∧
    (0.05 : ℝ) < 7 / 9 ∧ (0.05 : ℝ) < 1 ∧
    (combinarComFontePrincipal respostasGeo perguntaGeo "geral").2 = some "s1" ∧
    ("s1" : String) ≠ "s1" ++ "+" ++ "s2" :=
  ⟨rank_respostasGeo, by norm_num, by norm_num,
   by rw [combinarComFonte_respostasGeo], by decide⟩
